import Mathlib

/-
Verification of the order placement and fulfillment workflow of
server/controllers/orderController.js against its specification.

The controller is embedded shallowly: the PostgreSQL store is an explicit
record of tables, and every Express handler becomes a function from a
request and a store to a pair of (response, resulting store).  The
response is `Except ErrorHandler A`: `.error e` models the error response
sent by the first `next(new ErrorHandler(...))` call (or the first thrown
exception when no `next` call preceded it), `.ok a` models the 200 JSON
body.  JavaScript number arithmetic on prices is modelled as exact
rational arithmetic; stock lives in ℤ because the SQL decrement
`stock = stock - $1` is unconditional and can drive it negative.

Two control-flow facts of the source are embedded exactly because the
claims hinge on them:
* `return next(...)` inside `items.forEach` (orderController.js:53-69)
  returns only from the forEach callback; the handler keeps running, so
  the order INSERT (line 99) executes even after a stock or not-found
  error, and the stock loop (lines 142-147) decrements for every item.
* a thrown exception (JSON.parse, a malformed SQL statement) aborts the
  rest of the handler; `catchAsyncErrors` forwards it to the error
  middleware, which is a 500 response unless an earlier `next` call
  already answered the request.
-/

deriving instance DecidableEq for Except

namespace ECommerce

/-- Modelled from the spec: the `ErrorHandler` class lives in
server/middlewares/errorMiddleware.js, which is not in the sources; per
§7 of the spec and every call site it carries a message and an HTTP
status code, and the error middleware answers the request with them.
Thrown non-`ErrorHandler` exceptions surface with status 500. -/
structure ErrorHandler where
  message : String
  statusCode : Nat
  deriving DecidableEq, Repr

/-- Row of the `products` table (`products(id, name, price, stock)`,
orderController.js:45).  Stock is ℤ: the schema stores an integer and the
controller's unconditional decrement can make it negative. -/
structure Product where
  id : String
  name : String
  price : ℚ
  stock : ℤ
  deriving DecidableEq, Repr

/-- One entry of the request's `orderedItems` payload: the controller
reads `item.product.id`, `item.quantity` and
`item.product.images?.[0]?.url || ""` (orderController.js:43,62,74-81). -/
structure CartLine where
  pid : String
  quantity : Nat
  image : String
  deriving DecidableEq, Repr

/-- Row of the `orders` table (orderController.js:100-104). `paid_at` is
nullable; placement stores `NOW()`, modelled as the store clock. -/
structure Order where
  id : Nat
  buyer_id : String
  total_price : ℤ
  tax_price : ℚ
  shipping_price : ℚ
  order_status : String
  paid_at : Option Nat
  deriving DecidableEq, Repr

/-- Row of the `order_items` table (orderController.js:117). -/
structure OrderItem where
  id : Nat
  order_id : Nat
  product_id : String
  quantity : Nat
  price : ℚ
  image : String
  title : String
  deriving DecidableEq, Repr

/-- Row of the `shipping_info` table (orderController.js:126). -/
structure ShippingInfo where
  order_id : Nat
  full_name : String
  state : String
  city : String
  country : String
  address : String
  pincode : String
  phone : String
  deriving DecidableEq, Repr

/-- Row of the `payments` table (orderController.js:135). -/
structure Payment where
  order_id : Nat
  payment_type : String
  payment_status : String
  payment_intent_id : Option String
  deriving DecidableEq, Repr

/-- The shared PostgreSQL store: one list per table, generators for the
serial order / order-item identifiers, and a clock supplying `NOW()`. -/
structure Store where
  products : List Product
  orders : List Order
  order_items : List OrderItem
  shipping_info : List ShippingInfo
  payments : List Payment
  nextOrderId : Nat
  nextItemId : Nat
  clock : Nat
  deriving DecidableEq, Repr

/-- The `orderedItems` field of the request body, as the dynamic shapes
the controller distinguishes (orderController.js:34-43): a structured
array; a string whose `JSON.parse` yields an array; a string parsing to a
falsy value (`null`, `false`, `0`, `""`, caught by `!items` at line 38);
a string parsing to a truthy non-array whose `length` property is
strictly `0` (e.g. the object parsed from the text `{"length":0}`,
caught by `items.length === 0` at line 38); a string parsing to a truthy
non-array that passes the length check (`length` absent or nonzero:
object, number, nonempty string — reaching `items.map` at line 43); a
string `JSON.parse` throws on. -/
inductive CartPayload where
  | structured : List CartLine → CartPayload
  | serializedOk : List CartLine → CartPayload
  | serializedFalsy : CartPayload
  | serializedNonListZeroLen : CartPayload
  | serializedNonList : CartPayload
  | serializedBad : CartPayload
  deriving DecidableEq, Repr

/-- A placement request: `req.user.id` (injected by the auth middleware)
plus the shipping fields and cart payload of `req.body`
(orderController.js:7-16).  A missing field and an empty string are both
falsy in JavaScript, so both are modelled by `""`. -/
structure PlaceRequest where
  userId : String
  full_name : String
  state : String
  city : String
  country : String
  address : String
  pincode : String
  phone : String
  orderedItems : CartPayload
  deriving DecidableEq, Repr

/-- Response body of a successful placement (orderController.js:149-154). -/
structure PlaceSuccess where
  order : Order
  total_price : ℤ
  deriving DecidableEq, Repr

/-- Error of orderController.js:29. -/
def shippingDetailsError : ErrorHandler :=
  ⟨"Please provide complete shipping details.", 400⟩

/-- Error of orderController.js:39. -/
def noItemsError : ErrorHandler := ⟨"No items in cart.", 400⟩

/-- Error of orderController.js:58 (a product id absent from the lookup). -/
def productNotFoundError (pid : String) : ErrorHandler :=
  ⟨"Product not found for ID: " ++ pid, 404⟩

/-- Error of orderController.js:65 (requested quantity exceeds stock). -/
def stockUnitsError (stock : ℤ) (name : String) : ErrorHandler :=
  ⟨"Only " ++ toString stock ++ " units available for " ++ name, 400⟩

/-- `JSON.parse` throwing on a malformed string (orderController.js:36);
the runtime message is environment specific, the status is 500. -/
def jsonParseError : ErrorHandler :=
  ⟨"SyntaxError: unexpected token in JSON", 500⟩

/-- `items.map` throwing when the parsed payload is a truthy non-array
(orderController.js:43); surfaces as a 500. -/
def mapTypeError : ErrorHandler :=
  ⟨"TypeError: items.map is not a function", 500⟩

/-- The bulk `INSERT INTO order_items` failing: with zero value groups it
is a syntax error, with value groups whose placeholder numbers do not
match the supplied parameter count it is a bind error
(orderController.js:115-121); either way a thrown 500. -/
def bulkInsertSqlError : ErrorHandler :=
  ⟨"SQL error in INSERT INTO order_items", 500⟩

/-- Error of orderController.js:293 and orderController.js:316. -/
def invalidOrderIdError : ErrorHandler := ⟨"Invalid order ID.", 404⟩

/-- Error of orderController.js:284. -/
def statusMissingError : ErrorHandler :=
  ⟨"Provide a valid status for order.", 400⟩

/-- The falsy test of orderController.js:19-27: each shipping field is a
string, and the only falsy string is `""`. -/
def missingShipping (r : PlaceRequest) : Bool :=
  r.full_name == "" || r.state == "" || r.city == "" || r.country == "" ||
  r.address == "" || r.pincode == "" || r.phone == ""

/-- Outcome of normalising `orderedItems` (orderController.js:34-43):
an array; a falsy value (fails `!items`); a truthy non-array whose
`length` is strictly `0` (fails `items.length === 0`); a truthy
non-array passing the length check (later crashes at `items.map`); a
`JSON.parse` failure. -/
inductive ParseOut where
  | list : List CartLine → ParseOut
  | falsy : ParseOut
  | zeroLen : ParseOut
  | nonList : ParseOut
  | parseError : ParseOut
  deriving DecidableEq, Repr

/-- `Array.isArray(orderedItems) ? orderedItems : JSON.parse(orderedItems || "[]")`
(orderController.js:34-36), by payload shape. -/
def parsePayload : CartPayload → ParseOut
  | .structured items => .list items
  | .serializedOk items => .list items
  | .serializedFalsy => .falsy
  | .serializedNonListZeroLen => .zeroLen
  | .serializedNonList => .nonList
  | .serializedBad => .parseError

/-- The product lookup
`SELECT id, price, stock, name FROM products WHERE id = ANY($1)`
(orderController.js:44-47): table rows whose id occurs among the cart
lines, in table order. -/
def lookupProducts (st : Store) (items : List CartLine) : List Product :=
  st.products.filter (fun p => (items.map CartLine.pid).contains p.id)

/-- `products.find((p) => p.id === item.product.id)` (orderController.js:54). -/
def findProduct (ps : List Product) (pid : String) : Option Product :=
  ps.find? (fun p => p.id == pid)

/-- The `items.forEach` of orderController.js:53-89.  Because
`return next(...)` only leaves the callback, the loop always visits every
item; it yields the error of the first offending line (the first `next`
call decides the response), the list of contributing lines (original
index, line, resolved product) whose values/placeholders were pushed, and
the accumulated `total_price` over contributing lines only. -/
def scanLines (ps : List Product) :
    List CartLine → Nat → Option ErrorHandler × List (Nat × CartLine × Product) × ℚ
  | [], _ => (none, [], 0)
  | line :: rest, i =>
    let t := scanLines ps rest (i + 1)
    match findProduct ps line.pid with
    | none => (some (productNotFoundError line.pid), t.2.1, t.2.2)
    | some p =>
      if (line.quantity : ℤ) > p.stock then
        (some (stockUnitsError p.stock p.name), t.2.1, t.2.2)
      else
        (t.1, (i, line, p) :: t.2.1, p.price * (line.quantity : ℚ) + t.2.2)

/-- `Math.round`: round half up to the nearest integer, as the spec fixes
it (Math.round rounds ties toward +∞, which is ⌊x + 1/2⌋).  Stated with
the executable `Rat.floor`. -/
def roundHalfUp (q : ℚ) : ℤ := (q + 1 / 2).floor

/-- `const tax_price = 0.18` (orderController.js:92); JavaScript number
arithmetic is modelled as exact rational arithmetic. -/
def taxRate : ℚ := 18 / 100

/-- The stock loop of orderController.js:142-147: one unconditional
`UPDATE products SET stock = stock - $1 WHERE id = $2` per cart line
(every line, contributing or not), in order. -/
def decrementStock (st : Store) (items : List CartLine) : Store :=
  items.foldl (fun s line =>
    { s with products := s.products.map (fun p =>
        if p.id == line.pid then
          { p with stock := p.stock - (line.quantity : ℤ) }
        else p) }) st

/-- Whether the bulk `INSERT INTO order_items` succeeds
(orderController.js:115-121): the callback pushes a placeholder group
`($6i+1..$6i+6)` for the original index `i` of each contributing line and
six values per contributing line, so the statement is well formed exactly
when there is at least one group and the contributing indices are
`0, 1, ..., k-1` (otherwise: empty VALUES is a syntax error, and a
placeholder number beyond the supplied parameter count is a bind error). -/
def bulkInsertOk (contribs : List (Nat × CartLine × Product)) : Bool :=
  !contribs.isEmpty &&
    contribs.map (fun c => c.1) == List.range contribs.length

/-- Steps 3-9 of `placeNewOrder` after the product snapshot is in hand
(orderController.js:49-154): scan the lines, compute shipping and the
rounded total, INSERT the order (always reached — forEach errors do not
abort), then, if the bulk insert statement is well formed, INSERT the
order items, shipping info and payment and run the stock decrements;
a thrown bulk-insert error stops the remaining steps.  The response is
the first `next(...)` error when one fired, the success body otherwise. -/
def writePhase (r : PlaceRequest) (items : List CartLine) (products : List Product)
    (st : Store) : Except ErrorHandler PlaceSuccess × Store :=
  let scan := scanLines products items 0
  let firstErr := scan.1
  let contribs := scan.2.1
  let subtotal := scan.2.2
  let shipping_price : ℚ := if subtotal ≥ 50 then 0 else 2
  let total_price : ℤ := roundHalfUp (subtotal + subtotal * taxRate + shipping_price)
  let order : Order :=
    { id := st.nextOrderId, buyer_id := r.userId, total_price := total_price,
      tax_price := taxRate, shipping_price := shipping_price,
      order_status := "Processing", paid_at := some st.clock }
  let st1 := { st with
    orders := st.orders ++ [order], nextOrderId := st.nextOrderId + 1 }
  if bulkInsertOk contribs then
    let st2 := { st1 with
      order_items := st1.order_items ++ contribs.enum.map
        (fun (jc : Nat × Nat × CartLine × Product) =>
        ({ id := st.nextItemId + jc.1, order_id := order.id,
           product_id := jc.2.2.2.id, quantity := jc.2.2.1.quantity,
           price := jc.2.2.2.price, image := jc.2.2.1.image,
           title := jc.2.2.2.name } : OrderItem)),
      nextItemId := st.nextItemId + contribs.length }
    let st3 := { st2 with shipping_info := st2.shipping_info ++
      [({ order_id := order.id, full_name := r.full_name, state := r.state,
          city := r.city, country := r.country, address := r.address,
          pincode := r.pincode, phone := r.phone } : ShippingInfo)] }
    let st4 := { st3 with payments := st3.payments ++
      [({ order_id := order.id, payment_type := "Online",
          payment_status := "Paid", payment_intent_id := none } : Payment)] }
    let st5 := decrementStock st4 items
    match firstErr with
    | some e => (.error e, st5)
    | none => (.ok ⟨order, total_price⟩, st5)
  else
    (.error (firstErr.getD bulkInsertSqlError), st1)

/-- Steps 1-3 of `placeNewOrder` (orderController.js:18-47): validate the
shipping fields, normalise the cart payload, reject an empty or
zero-length cart (the `!items || items.length === 0` check of line 38),
and read the product snapshot.  Purely a read of the store. -/
def readPhase (r : PlaceRequest) (st : Store) :
    Except ErrorHandler (List CartLine × List Product) :=
  if missingShipping r then .error shippingDetailsError
  else
    match parsePayload r.orderedItems with
    | .parseError => .error jsonParseError
    | .falsy => .error noItemsError
    | .zeroLen => .error noItemsError
    | .nonList => .error mapTypeError
    | .list items =>
      if items.isEmpty then .error noItemsError
      else .ok (items, lookupProducts st items)

/-- `placeNewOrder` (orderController.js:6-155): the read phase followed
by the write phase on the same store. -/
def placeNewOrder (r : PlaceRequest) (st : Store) :
    Except ErrorHandler PlaceSuccess × Store :=
  match readPhase r st with
  | .error e => (.error e, st)
  | .ok (items, products) => writePhase r items products st

/-- One element of the `order_items` JSON aggregate built by
`fetchSingleOrder` (orderController.js:166-172): only id, order id,
product id, quantity and price are projected. -/
structure JoinedItem where
  order_item_id : Nat
  order_id : Nat
  product_id : String
  quantity : Nat
  price : ℚ
  deriving DecidableEq, Repr

/-- The `shipping_info` JSON object built by the order queries
(orderController.js:175-183). -/
structure JoinedShipping where
  full_name : String
  state : String
  city : String
  country : String
  address : String
  pincode : String
  phone : String
  deriving DecidableEq, Repr

/-- The row shape returned by the `fetchSingleOrder` query: the order,
its aggregated item list, and its shipping object.  When the LEFT JOIN
finds no shipping row every field of the object is null, modelled as
`none`. -/
structure JoinedOrder where
  order : Order
  order_items : List JoinedItem
  shipping_info : Option JoinedShipping
  deriving DecidableEq, Repr

/-- Projection of an `order_items` row into the aggregate's element
(orderController.js:166-172). -/
def joinedItemOf (oi : OrderItem) : JoinedItem :=
  ⟨oi.id, oi.order_id, oi.product_id, oi.quantity, oi.price⟩

/-- Projection of a `shipping_info` row into the JSON object
(orderController.js:175-183). -/
def joinedShippingOf (s : ShippingInfo) : JoinedShipping :=
  ⟨s.full_name, s.state, s.city, s.country, s.address, s.pincode, s.phone⟩

/-- `fetchSingleOrder` (orderController.js:158-198): the grouped LEFT
JOIN yields one row per matching order, with the items aggregated by
`COALESCE(json_agg(...) FILTER (WHERE oi.id IS NOT NULL), [])` — an
empty list when the order has no items.  The handler answers 200 with
`result.rows[0]`, which is undefined (`none`) when no order matches; it
never produces an error response.  The store is unchanged. -/
def fetchSingleOrder (orderId : Nat) (st : Store) :
    Except ErrorHandler (Option JoinedOrder) × Store :=
  match st.orders.find? (fun o => o.id == orderId) with
  | none => (.ok none, st)
  | some o =>
    (.ok (some
      { order := o,
        order_items :=
          (st.order_items.filter (fun oi => oi.order_id == orderId)).map joinedItemOf,
        shipping_info :=
          (st.shipping_info.find? (fun s => s.order_id == orderId)).map
            joinedShippingOf }), st)

/-- `updateOrderStatus` (orderController.js:281-306): reject a falsy
status, 404 when the SELECT finds no order, otherwise
`UPDATE orders SET order_status = $1 WHERE id = $2 RETURNING *` and
answer with the updated row. -/
def updateOrderStatus (orderId : Nat) (status : String) (st : Store) :
    Except ErrorHandler Order × Store :=
  if status == "" then (.error statusMissingError, st)
  else
    match st.orders.find? (fun o => o.id == orderId) with
    | none => (.error invalidOrderIdError, st)
    | some o =>
      (.ok { o with order_status := status },
       { st with orders := st.orders.map (fun o' =>
           if o'.id == orderId then { o' with order_status := status } else o') })

/-- `deleteOrder` (orderController.js:309-324):
`DELETE FROM orders WHERE id = $1 RETURNING *`; 404 when nothing was
deleted, else answer with the deleted row.  Only the `orders` table is
touched. -/
def deleteOrder (orderId : Nat) (st : Store) : Except ErrorHandler Order × Store :=
  match st.orders.find? (fun o => o.id == orderId) with
  | none => (.error invalidOrderIdError, st)
  | some o =>
    (.ok o, { st with orders := st.orders.filter (fun o' => !(o'.id == orderId)) })

/-- A legal interleaving of two concurrent `placeNewOrder` requests:
every `await database.query(...)` is a suspension point, so the first
handler can perform its product SELECT (the read phase), then the second
handler can run to completion, and only then does the first handler
resume its writes against the updated store while still holding the
stale product snapshot. -/
def interleavedTwoPlacements (r1 r2 : PlaceRequest) (st : Store) :
    Except ErrorHandler PlaceSuccess × Except ErrorHandler PlaceSuccess × Store :=
  match readPhase r1 st with
  | .error e =>
    let s2 := placeNewOrder r2 st
    (.error e, s2.1, s2.2)
  | .ok (items, products) =>
    let s2 := placeNewOrder r2 st
    let s1 := writePhase r1 items products s2.2
    (s1.1, s2.1, s1.2)

/-- A cart line that passes the per-line check of orderController.js:56-69
against a product list: its product is found and the requested quantity is
within the fetched stock. -/
def lineOkB (ps : List Product) (l : CartLine) : Bool :=
  match findProduct ps l.pid with
  | none => false
  | some p => decide ((l.quantity : ℤ) ≤ p.stock)

/-- Unit price a cart line resolves to (`product.price`,
orderController.js:71), 0 when the product is absent. -/
def linePrice (ps : List Product) (l : CartLine) : ℚ :=
  match findProduct ps l.pid with
  | none => 0
  | some p => p.price

/-- The aggregate subtotal of a cart: the sum over lines of unit price
times requested quantity (orderController.js:71-72). -/
def cartSubtotal (ps : List Product) (items : List CartLine) : ℚ :=
  (items.map (fun l => linePrice ps l * (l.quantity : ℚ))).sum

/-- Concrete catalog product used by the concrete runs. -/
def widget (stock : ℤ) : Product := ⟨"p1", "Widget", 30, stock⟩

/-- A store whose catalog holds one product with the given stock and no
orders yet. -/
def storeWith (stock : ℤ) : Store :=
  { products := [widget stock], orders := [], order_items := [],
    shipping_info := [], payments := [], nextOrderId := 0, nextItemId := 0,
    clock := 7 }

/-- A placement request with complete shipping fields and the given
structured cart. -/
def requestWith (lines : List CartLine) : PlaceRequest :=
  { userId := "u1", full_name := "Ada Lovelace", state := "KA",
    city := "Bengaluru", country := "IN", address := "1 Main St",
    pincode := "560001", phone := "555", orderedItems := .structured lines }

/-- A store holding one already-placed order (id 5) together with its
order item, shipping row and payment row. -/
def placedStore : Store :=
  { products := [widget 3],
    orders := [⟨5, "u1", 71, 18 / 100, 0, "Processing", some 7⟩],
    order_items := [⟨0, 5, "p1", 2, 30, "", "Widget"⟩],
    shipping_info := [⟨5, "Ada Lovelace", "KA", "Bengaluru", "IN",
                       "1 Main St", "560001", "555"⟩],
    payments := [⟨5, "Online", "Paid", none⟩],
    nextOrderId := 6, nextItemId := 1, clock := 9 }

theorem roundHalfUp_eq_floor (q : ℚ) : roundHalfUp q = ⌊q + 1 / 2⌋ := by
  rw [roundHalfUp, Rat.floor_def', Rat.floor_def]

theorem lineOkB_iff (ps : List Product) (l : CartLine) :
    lineOkB ps l = true ↔
      ∃ p, findProduct ps l.pid = some p ∧ (l.quantity : ℤ) ≤ p.stock := by
  unfold lineOkB
  cases h : findProduct ps l.pid <;> simp [h]

theorem scanLines_all_ok (ps : List Product) (items : List CartLine) :
    ∀ i : Nat, (∀ l ∈ items, lineOkB ps l = true) →
      (scanLines ps items i).1 = none ∧
      (scanLines ps items i).2.1.map (fun c => c.1) = List.range' i items.length ∧
      (scanLines ps items i).2.2 = cartSubtotal ps items := by
  induction items with
  | nil => intro i _; simp [scanLines, cartSubtotal]
  | cons l rest ih =>
    intro i h
    obtain ⟨p, hp, hq⟩ := (lineOkB_iff ps l).1 (h l (List.mem_cons_self l rest))
    have hr := ih (i + 1) (fun l' hl' => h l' (List.mem_cons_of_mem l hl'))
    simp only [scanLines, hp]
    rw [if_neg (by omega)]
    refine ⟨hr.1, ?_, ?_⟩
    · simpa [List.range'] using hr.2.1
    · simp [cartSubtotal, linePrice, hp, hr.2.2]

theorem scanLines_append_ok (ps : List Product) (pre : List CartLine) :
    ∀ (rest : List CartLine) (i : Nat),
      (∀ l ∈ pre, lineOkB ps l = true) →
      (scanLines ps (pre ++ rest) i).1 = (scanLines ps rest (i + pre.length)).1 := by
  induction pre with
  | nil => intro rest i _; simp
  | cons l pre ih =>
    intro rest i h
    obtain ⟨p, hp, hq⟩ := (lineOkB_iff ps l).1 (h l (List.mem_cons_self l pre))
    rw [List.cons_append]
    simp only [scanLines, hp]
    rw [if_neg (by omega)]
    rw [ih rest (i + 1) (fun l' hl' => h l' (List.mem_cons_of_mem l hl'))]
    have : i + 1 + pre.length = i + (l :: pre).length := by simp; omega
    rw [this]

theorem writePhase_error_response (r : PlaceRequest) (items : List CartLine)
    (ps : List Product) (st : Store) (e : ErrorHandler)
    (h : (scanLines ps items 0).1 = some e) :
    (writePhase r items ps st).1 = .error e := by
  simp only [writePhase]
  split <;> simp [h]

theorem placeNewOrder_route (r : PlaceRequest) (st : Store) (items : List CartLine)
    (hship : missingShipping r = false)
    (hpayload : parsePayload r.orderedItems = ParseOut.list items)
    (hempty : items.isEmpty = false) :
    placeNewOrder r st = writePhase r items (lookupProducts st items) st := by
  unfold placeNewOrder readPhase
  rw [hship, hpayload]
  simp [hempty]

theorem writePhase_ok_response (r : PlaceRequest) (items : List CartLine)
    (ps : List Product) (st : Store)
    (h1 : (scanLines ps items 0).1 = none)
    (hbulk : bulkInsertOk (scanLines ps items 0).2.1 = true) :
    ∃ o : Order,
      (writePhase r items ps st).1 = .ok ⟨o, o.total_price⟩ ∧
      o.total_price = roundHalfUp
        ((scanLines ps items 0).2.2 + (scanLines ps items 0).2.2 * taxRate +
          (if (scanLines ps items 0).2.2 ≥ 50 then 0 else 2)) := by
  simp only [writePhase, hbulk, if_true, h1]
  exact ⟨_, rfl, rfl⟩

theorem bulkInsertOk_of_all_ok (ps : List Product) (items : List CartLine)
    (hne : items ≠ []) (hok : ∀ l ∈ items, lineOkB ps l = true) :
    bulkInsertOk (scanLines ps items 0).2.1 = true := by
  obtain ⟨h1, h2, h3⟩ := scanLines_all_ok ps items 0 hok
  have hlen : (scanLines ps items 0).2.1.length = items.length := by
    simpa using congrArg List.length h2
  unfold bulkInsertOk
  rw [hlen, h2, List.range_eq_range']
  have hne2 : (scanLines ps items 0).2.1 ≠ [] := by
    intro hc
    rw [hc] at hlen
    exact hne (List.eq_nil_of_length_eq_zero hlen.symm)
  simp [hne2]

/-- C3: for every valid cart — all products found and every line's
quantity within the fetched stock — placement succeeds and the computed
`total_price` is `round(subtotal + subtotal * 0.18 + shipping)`, where
`subtotal` is the sum over lines of resolved unit price times quantity,
`shipping` is 0 when `subtotal ≥ 50` and 2 otherwise, and `round` is
round-half-up to the nearest integer currency unit
(`roundHalfUp q = ⌊q + 1/2⌋` by `roundHalfUp_eq_floor`). -/
theorem placeNewOrder_total_price_formula (r : PlaceRequest) (st : Store)
    (items : List CartLine)
    (hship : missingShipping r = false)
    (hpayload : parsePayload r.orderedItems = ParseOut.list items)
    (hne : items ≠ [])
    (hok : ∀ l ∈ items, lineOkB (lookupProducts st items) l = true) :
    ∃ o : Order,
      (placeNewOrder r st).1 = Except.ok ⟨o, o.total_price⟩ ∧
      o.total_price =
        roundHalfUp
          (cartSubtotal (lookupProducts st items) items +
            cartSubtotal (lookupProducts st items) items * taxRate +
            (if cartSubtotal (lookupProducts st items) items ≥ 50 then 0 else 2)) := by
  obtain ⟨h1, h2, h3⟩ := scanLines_all_ok (lookupProducts st items) items 0 hok
  have hempty : items.isEmpty = false := by
    cases items with
    | nil => exact absurd rfl hne
    | cons a l => rfl
  rw [placeNewOrder_route r st items hship hpayload hempty]
  obtain ⟨o, ho1, ho2⟩ := writePhase_ok_response r items (lookupProducts st items) st
    h1 (bulkInsertOk_of_all_ok _ items hne hok)
  exact ⟨o, ho1, by rw [ho2, h3]⟩

/-- C3 witness: the spec's own example — one line of product P1 with
price 30 and stock 5, quantity 2 — instantiates the theorem (subtotal 60,
tax 10.8, shipping 0, total round(70.8) = 71). -/
theorem placeNewOrder_total_price_formula_witness :
    ∃ o : Order,
      (placeNewOrder (requestWith [⟨"p1", 2, ""⟩]) (storeWith 5)).1 =
        Except.ok ⟨o, o.total_price⟩ ∧
      o.total_price =
        roundHalfUp
          (cartSubtotal (lookupProducts (storeWith 5) [⟨"p1", 2, ""⟩]) [⟨"p1", 2, ""⟩] +
            cartSubtotal (lookupProducts (storeWith 5) [⟨"p1", 2, ""⟩]) [⟨"p1", 2, ""⟩] * taxRate +
            (if cartSubtotal (lookupProducts (storeWith 5) [⟨"p1", 2, ""⟩]) [⟨"p1", 2, ""⟩] ≥ 50
             then 0 else 2)) :=
  placeNewOrder_total_price_formula (requestWith [⟨"p1", 2, ""⟩]) (storeWith 5)
    [⟨"p1", 2, ""⟩] (by decide) (by decide) (by decide) (by decide)

/-- C4: when a cart line offends — its product is absent from the lookup
result, or its quantity exceeds the fetched stock — and every earlier
line passes, the placement's response is the corresponding error: a 404
naming the product id, or the 400 stock error whose message names the
remaining stock and the product (`Only {stock} units available for
{name}`); the whole placement fails (the response is an error) in either
case. -/
theorem placeNewOrder_line_error (r : PlaceRequest) (st : Store)
    (pre rest : List CartLine) (l : CartLine)
    (hship : missingShipping r = false)
    (hpayload : parsePayload r.orderedItems = ParseOut.list (pre ++ l :: rest))
    (hpre : ∀ l' ∈ pre, lineOkB (lookupProducts st (pre ++ l :: rest)) l' = true) :
    (findProduct (lookupProducts st (pre ++ l :: rest)) l.pid = none →
        (placeNewOrder r st).1 = .error (productNotFoundError l.pid)) ∧
    (∀ p, findProduct (lookupProducts st (pre ++ l :: rest)) l.pid = some p →
        (l.quantity : ℤ) > p.stock →
        (placeNewOrder r st).1 = .error (stockUnitsError p.stock p.name)) := by
  have hempty : (pre ++ l :: rest).isEmpty = false := by
    cases pre <;> rfl
  rw [placeNewOrder_route r st _ hship hpayload hempty]
  constructor
  · intro hnone
    apply writePhase_error_response
    rw [scanLines_append_ok _ pre _ 0 hpre]
    simp [scanLines, hnone]
  · intro p hp hgt
    apply writePhase_error_response
    rw [scanLines_append_ok _ pre _ 0 hpre]
    simp only [scanLines, hp]
    rw [if_pos hgt]

/-- C4 witness: the spec's stock example — one line requesting 4 units of
a product with stock 3 — yields the 400 error mentioning the 3 available
units; the witness applies the theorem with an empty passing prefix. -/
theorem placeNewOrder_line_error_witness :
    (placeNewOrder (requestWith [⟨"p1", 4, ""⟩]) (storeWith 3)).1 =
      .error (stockUnitsError 3 "Widget") :=
  (placeNewOrder_line_error (requestWith [⟨"p1", 4, ""⟩]) (storeWith 3)
      [] [] ⟨"p1", 4, ""⟩ (by decide) (by decide) (by decide)).2
    (widget 3) (by decide) (by decide)

/-- C1: the claim says a placement failing at any step surfaces the
originating error and leaves the store unchanged (no Order row, etc.).
The code violates this: on a cart whose single line requests 6 units of a
product with stock 5, the response is the stock error, yet the handler
kept running past the `return next(...)` inside `forEach` and the
`INSERT INTO orders` of step 5 committed — an Order row with status
`Processing` persists in the store. -/
theorem placement_failure_leaves_order_row :
    (placeNewOrder (requestWith [⟨"p1", 6, ""⟩]) (storeWith 5)).1 =
      .error (stockUnitsError 5 "Widget") ∧
    (placeNewOrder (requestWith [⟨"p1", 6, ""⟩]) (storeWith 5)).2.orders.map
        Order.order_status = ["Processing"] := by
  decide

/-- C2: the claim says stock is never negative and the decrement is a
conditional update failing with StockError.  The code's decrement is the
blind `UPDATE products SET stock = stock - $1`: a single placement with
two lines of 3 units each against stock 5 passes every per-line check,
succeeds, and leaves the stock at -1. -/
theorem stock_decrement_goes_negative :
    (placeNewOrder (requestWith [⟨"p1", 3, ""⟩, ⟨"p1", 3, ""⟩])
        (storeWith 5)).1.isOk = true ∧
    (placeNewOrder (requestWith [⟨"p1", 3, ""⟩, ⟨"p1", 3, ""⟩])
        (storeWith 5)).2.products.map Product.stock = [-1] := by
  decide

/-- C5 counterexample: the claim says `fetchOrder` fails with
NotFoundError for a missing order id; on a store with no order 0 the
handler instead answers 200 with an undefined row (`.ok none`) and in
particular not with the controller's 404 error. -/
theorem fetchSingleOrder_missing_not_404 :
    (fetchSingleOrder 0 (storeWith 3)).1 = .ok none ∧
    (fetchSingleOrder 0 (storeWith 3)).1 ≠ .error invalidOrderIdError := by
  decide

/-- C6: the claim says deleting an existing order leaves no orphaned
OrderItem/ShippingInfo/Payment rows and a subsequent fetch yields
NotFoundError.  The code deletes only the `orders` row: after deleting
order 5, its item, shipping and payment rows are still present, and the
subsequent fetch answers 200 with no row rather than a 404. -/
theorem deleteOrder_leaves_orphans :
    (deleteOrder 5 placedStore).1.isOk = true ∧
    (deleteOrder 5 placedStore).2.orders = [] ∧
    (deleteOrder 5 placedStore).2.order_items ≠ [] ∧
    (deleteOrder 5 placedStore).2.shipping_info ≠ [] ∧
    (deleteOrder 5 placedStore).2.payments ≠ [] ∧
    (fetchSingleOrder 5 (deleteOrder 5 placedStore).2).1 = .ok none := by
  decide

/-- C8 counterexample: the claim says validation fails with
ValidationError when a shipping field is empty after trimming or when the
serialized cart is non-parseable.  The code checks falsiness only and
never trims: with `full_name = " "` (empty after trimming) the placement
succeeds outright; and a non-parseable serialized cart surfaces as a
thrown 500, not as the 400 validation error. -/
theorem validation_claim_counterexample :
    (placeNewOrder { requestWith [⟨"p1", 1, ""⟩] with full_name := " " }
        (storeWith 5)).1.isOk = true ∧
    (placeNewOrder { requestWith [] with orderedItems := .serializedBad }
        (storeWith 5)).1 = .error jsonParseError ∧
    jsonParseError.statusCode = 500 := by
  decide

/-- C9: the claim says N concurrent placements for the last unit give
exactly one success, N-1 StockErrors, and final stock 0.  Without a
transaction or conditional update, the interleaving in which both
handlers read the product snapshot (stock 1) before either writes lets
both pass the check: both placements succeed and the final stock is -1. -/
theorem concurrent_last_unit_oversold :
    (interleavedTwoPlacements (requestWith [⟨"p1", 1, ""⟩])
        (requestWith [⟨"p1", 1, ""⟩]) (storeWith 1)).1.isOk = true ∧
    (interleavedTwoPlacements (requestWith [⟨"p1", 1, ""⟩])
        (requestWith [⟨"p1", 1, ""⟩]) (storeWith 1)).2.1.isOk = true ∧
    (interleavedTwoPlacements (requestWith [⟨"p1", 1, ""⟩])
        (requestWith [⟨"p1", 1, ""⟩]) (storeWith 1)).2.2.products.map
        Product.stock = [-1] := by
  decide

/-- C10: a single request whose cart references the same product in two
lines, each within stock (2 ≤ 3) but summing beyond it (4 > 3), passes
every per-line check (each line is compared against the same fetched
stock), raises no StockError — the placement succeeds — and the stock
loop decrements by the combined quantity, leaving stock 3 - 4 = -1. -/
theorem duplicate_lines_bypass_stock_check :
    (placeNewOrder (requestWith [⟨"p1", 2, ""⟩, ⟨"p1", 2, ""⟩])
        (storeWith 3)).1.isOk = true ∧
    (placeNewOrder (requestWith [⟨"p1", 2, ""⟩, ⟨"p1", 2, ""⟩])
        (storeWith 3)).2.products.map Product.stock = [-1] := by
  decide

/-- C7: `updateStatus` rejects an empty status with the 400 validation
error, answers 404 when no order has the id, and otherwise answers with
the found order whose status — and only its status — is replaced, while
the rest of the store is untouched: products, items, shipping, payments
and generators are unchanged, orders keep their count, every order with a
different id survives unchanged, the matching order survives with only
its status replaced, and nothing else appears. -/
theorem updateOrderStatus_spec (orderId : Nat) (status : String) (st : Store) :
    (status = "" → updateOrderStatus orderId status st = (.error statusMissingError, st)) ∧
    ((∀ o ∈ st.orders, o.id ≠ orderId) → status ≠ "" →
        updateOrderStatus orderId status st = (.error invalidOrderIdError, st)) ∧
    (∀ o, status ≠ "" → st.orders.find? (fun o' => o'.id == orderId) = some o →
        ∃ st', updateOrderStatus orderId status st =
            (.ok { o with order_status := status }, st') ∧
          st'.products = st.products ∧ st'.order_items = st.order_items ∧
          st'.shipping_info = st.shipping_info ∧ st'.payments = st.payments ∧
          st'.nextOrderId = st.nextOrderId ∧ st'.nextItemId = st.nextItemId ∧
          st'.clock = st.clock ∧
          st'.orders.length = st.orders.length ∧
          (∀ o' ∈ st.orders, o'.id ≠ orderId → o' ∈ st'.orders) ∧
          (∀ o' ∈ st.orders, o'.id = orderId →
            { o' with order_status := status } ∈ st'.orders) ∧
          (∀ u ∈ st'.orders, ∃ o' ∈ st.orders,
            (o'.id ≠ orderId ∧ u = o') ∨
            (o'.id = orderId ∧ u = { o' with order_status := status }))) := by
  refine ⟨?_, ?_, ?_⟩
  · intro h
    simp [updateOrderStatus, h]
  · intro h hs
    have hfind : st.orders.find? (fun o' => o'.id == orderId) = none :=
      List.find?_eq_none.2 (fun o ho => by simpa using h o ho)
    have hb : (status == "") = false := by simpa using hs
    simp [updateOrderStatus, hb, hfind]
  · intro o hs hfind
    have hb : (status == "") = false := by simpa using hs
    refine ⟨{ st with orders := st.orders.map (fun o' =>
        if o'.id == orderId then { o' with order_status := status } else o') },
      ?_, rfl, rfl, rfl, rfl, rfl, rfl, rfl, by simp, ?_, ?_, ?_⟩
    · simp [updateOrderStatus, hb, hfind]
    · intro o' ho' hne
      exact List.mem_map.2 ⟨o', ho', by simp [hne]⟩
    · intro o' ho' heq
      exact List.mem_map.2 ⟨o', ho', by simp [heq]⟩
    · intro u hu
      obtain ⟨o', ho', hmap⟩ := List.mem_map.1 hu
      by_cases hid : o'.id = orderId
      · exact ⟨o', ho', Or.inr ⟨hid, by rw [← hmap]; simp [hid]⟩⟩
      · exact ⟨o', ho', Or.inl ⟨hid, by rw [← hmap]; simp [hid]⟩⟩

/-- C7 witness: renaming order 5's status to `Shipped` on the concrete
store instantiates the success branch of the theorem. -/
theorem updateOrderStatus_spec_witness :
    ∃ st', updateOrderStatus 5 "Shipped" placedStore =
        (.ok { (⟨5, "u1", 71, 18 / 100, 0, "Processing", some 7⟩ : Order) with
                 order_status := "Shipped" }, st') ∧
      st'.products = placedStore.products ∧
      st'.order_items = placedStore.order_items ∧
      st'.shipping_info = placedStore.shipping_info ∧
      st'.payments = placedStore.payments ∧
      st'.nextOrderId = placedStore.nextOrderId ∧
      st'.nextItemId = placedStore.nextItemId ∧
      st'.clock = placedStore.clock ∧
      st'.orders.length = placedStore.orders.length ∧
      (∀ o' ∈ placedStore.orders, o'.id ≠ 5 → o' ∈ st'.orders) ∧
      (∀ o' ∈ placedStore.orders, o'.id = 5 →
        { o' with order_status := "Shipped" } ∈ st'.orders) ∧
      (∀ u ∈ st'.orders, ∃ o' ∈ placedStore.orders,
        (o'.id ≠ 5 ∧ u = o') ∨
        (o'.id = 5 ∧ u = { o' with order_status := "Shipped" })) :=
  (updateOrderStatus_spec 5 "Shipped" placedStore).2.2
    ⟨5, "u1", 71, 18 / 100, 0, "Processing", some 7⟩ (by decide) (by rfl)

/-- C5 amended: on a store with no order of the given id,
`fetchSingleOrder` answers 200 with no row (`.ok none`) — not a 404 —
and leaves the store unchanged; on an existing order it answers 200 with
the order joined to exactly the OrderItems owned by it (aggregated as a
list which is empty, not null, exactly when none exist) and to its
ShippingInfo object (absent fields when no shipping row exists). -/
theorem fetchSingleOrder_spec (orderId : Nat) (st : Store) :
    ((∀ o ∈ st.orders, o.id ≠ orderId) →
        fetchSingleOrder orderId st = (.ok none, st)) ∧
    (∀ o, st.orders.find? (fun o' => o'.id == orderId) = some o →
        ∃ j : JoinedOrder,
          fetchSingleOrder orderId st = (.ok (some j), st) ∧
          j.order = o ∧
          (∀ v, v ∈ j.order_items ↔
            ∃ oi ∈ st.order_items, oi.order_id = orderId ∧ v = joinedItemOf oi) ∧
          (j.order_items = [] ↔ ∀ oi ∈ st.order_items, oi.order_id ≠ orderId) ∧
          j.shipping_info =
            (st.shipping_info.find? (fun s => s.order_id == orderId)).map
              joinedShippingOf) := by
  constructor
  · intro h
    have hfind : st.orders.find? (fun o' => o'.id == orderId) = none :=
      List.find?_eq_none.2 (fun o ho => by simpa using h o ho)
    simp [fetchSingleOrder, hfind]
  · intro o hfind
    refine ⟨⟨o,
        (st.order_items.filter (fun oi => oi.order_id == orderId)).map joinedItemOf,
        (st.shipping_info.find? (fun s => s.order_id == orderId)).map
          joinedShippingOf⟩,
      ?_, rfl, ?_, ?_, rfl⟩
    · simp [fetchSingleOrder, hfind]
    · intro v
      simp only [List.mem_map, List.mem_filter, beq_iff_eq]
      constructor
      · rintro ⟨a, ⟨ha, he⟩, hv⟩
        exact ⟨a, ha, he, hv.symm⟩
      · rintro ⟨a, ha, he, hv⟩
        exact ⟨a, ⟨ha, he⟩, hv.symm⟩
    · rw [List.map_eq_nil_iff]
      rw [List.filter_eq_nil_iff]
      simp

/-- C5 witness: on the concrete placed store, fetching order 5 yields the
join with its single item and its shipping object. -/
theorem fetchSingleOrder_spec_witness :
    ∃ j : JoinedOrder,
      fetchSingleOrder 5 placedStore = (.ok (some j), placedStore) ∧
      j.order = ⟨5, "u1", 71, 18 / 100, 0, "Processing", some 7⟩ ∧
      (∀ v, v ∈ j.order_items ↔
        ∃ oi ∈ placedStore.order_items, oi.order_id = 5 ∧ v = joinedItemOf oi) ∧
      (j.order_items = [] ↔ ∀ oi ∈ placedStore.order_items, oi.order_id ≠ 5) ∧
      j.shipping_info =
        (placedStore.shipping_info.find? (fun s => s.order_id == 5)).map
          joinedShippingOf :=
  (fetchSingleOrder_spec 5 placedStore).2
    ⟨5, "u1", 71, 18 / 100, 0, "Processing", some 7⟩ (by rfl)

/-- C8 amended: the validation of `placeNewOrder` fails with the 400
shipping validation error exactly when some shipping field is absent or
the empty string — fields are not trimmed, so whitespace-only values
pass — and with the 400 empty-cart error when the structured or parsed
cart is the empty list, the payload parses to a falsy value, or the
payload parses to a truthy non-array whose `length` property is 0; a
non-parseable payload, or a truthy non-list payload that passes the
length check (`length` absent or nonzero), instead aborts with a thrown
500 — not a ValidationError.  In every one of these cases the store is
returned unchanged: validation performs no writes. -/
theorem validation_behavior (r : PlaceRequest) (st : Store) :
    (missingShipping r = true ↔
      (r.full_name = "" ∨ r.state = "" ∨ r.city = "" ∨ r.country = "" ∨
        r.address = "" ∨ r.pincode = "" ∨ r.phone = "")) ∧
    (missingShipping r = true →
        placeNewOrder r st = (.error shippingDetailsError, st)) ∧
    (missingShipping r = false → parsePayload r.orderedItems = ParseOut.list [] →
        placeNewOrder r st = (.error noItemsError, st)) ∧
    (missingShipping r = false → parsePayload r.orderedItems = ParseOut.falsy →
        placeNewOrder r st = (.error noItemsError, st)) ∧
    (missingShipping r = false → parsePayload r.orderedItems = ParseOut.zeroLen →
        placeNewOrder r st = (.error noItemsError, st)) ∧
    (missingShipping r = false → parsePayload r.orderedItems = ParseOut.parseError →
        placeNewOrder r st = (.error jsonParseError, st) ∧
        jsonParseError.statusCode = 500) ∧
    (missingShipping r = false → parsePayload r.orderedItems = ParseOut.nonList →
        placeNewOrder r st = (.error mapTypeError, st) ∧
        mapTypeError.statusCode = 500) := by
  refine ⟨?_, ?_, ?_, ?_, ?_, ?_, ?_⟩
  · simp [missingShipping, or_assoc]
  · intro h
    simp [placeNewOrder, readPhase, h]
  · intro h hp
    simp [placeNewOrder, readPhase, h, hp]
  · intro h hp
    simp [placeNewOrder, readPhase, h, hp]
  · intro h hp
    simp [placeNewOrder, readPhase, h, hp]
  · intro h hp
    exact ⟨by simp [placeNewOrder, readPhase, h, hp], rfl⟩
  · intro h hp
    exact ⟨by simp [placeNewOrder, readPhase, h, hp], rfl⟩

/-- C8 witness: a request whose phone field is the empty string is
rejected with the shipping validation error and the store is unchanged. -/
theorem validation_behavior_witness :
    placeNewOrder { requestWith [⟨"p1", 1, ""⟩] with phone := "" } (storeWith 5) =
      (.error shippingDetailsError, storeWith 5) :=
  (validation_behavior { requestWith [⟨"p1", 1, ""⟩] with phone := "" }
      (storeWith 5)).2.1 (by decide)

end ECommerce
